import Mathlib

/-!
Verification of the nix-ai-help MCP test/diagnostic harness.

The repository consists of Python scripts that exchange JSON-RPC 2.0
messages with an MCP server over a Unix domain socket and probe the
host environment.  This file gives a shallow embedding of the scripts'
data handling: JSON values as an inductive type, the serialization done
by json.dumps, Python membership/subscript semantics (including which
operations raise), the per-step response handlers of
tests/mcp/test_mcp_protocol.py, the checks of
tests/vscode/vscode_mcp_diagnostic.py, and the exit-status logic of the
entry points.  Numbers are modelled as naturals: every numeral appearing
in the scripts is a non-negative integer.
-/

mutual
/-- JSON values as produced by json.loads.  Arrays and objects use their
own list-like inductives so that all recursion below is structural. -/
inductive Json where
  | null : Json
  | bool : Bool → Json
  | num : Nat → Json
  | str : String → Json
  | arr : JsonArr → Json
  | obj : JsonObj → Json
deriving DecidableEq

inductive JsonArr where
  | nil : JsonArr
  | cons : Json → JsonArr → JsonArr
deriving DecidableEq

inductive JsonObj where
  | nil : JsonObj
  | cons : String → Json → JsonObj → JsonObj
deriving DecidableEq
end

/-- Lookup of a key in a JSON object; Python dict literals in the scripts
have distinct keys, so first-match lookup coincides with dict lookup. -/
def JsonObj.find? : JsonObj → String → Option Json
  | .nil, _ => none
  | .cons k v rest, key => if k == key then some v else rest.find? key

/-- Number of entries, modelling len() on a dict. -/
def JsonObj.size : JsonObj → Nat
  | .nil => 0
  | .cons _ _ rest => rest.size + 1

/-- Number of elements, modelling len() on a list. -/
def JsonArr.size : JsonArr → Nat
  | .nil => 0
  | .cons _ rest => rest.size + 1

/-- Membership of a value in a JSON array, modelling Python list
membership, which compares with structural equality here. -/
def JsonArr.containsVal : JsonArr → Json → Bool
  | .nil, _ => false
  | .cons x xs, v => x == v || xs.containsVal v

/-- Whether a JSON value is an object carrying the given key. -/
def jsonHasKey (j : Json) (k : String) : Bool :=
  match j with
  | .obj o => (o.find? k).isSome
  | _ => false

/-- Key access on a JSON value when it is an object. -/
def jsonGetKey (j : Json) (k : String) : Option Json :=
  match j with
  | .obj o => o.find? k
  | _ => none

/-- Does the character list start with the given pattern. -/
def charsStartWith : List Char → List Char → Bool
  | [], _ => true
  | a :: as, bs =>
    match bs with
    | [] => false
    | b :: brest => if a == b then charsStartWith as brest else false

/-- Contiguous-substring test on character lists, modelling Python
substring membership on str. -/
def listContainsSub : List Char → List Char → Bool
  | n, [] => n.isEmpty
  | n, c :: rest => charsStartWith n (c :: rest) || listContainsSub n rest

/-- Result of evaluating the Python pattern membership-then-subscript,
as in the scripts' pattern of testing a key with the in operator and
then subscripting with it.  err records that an exception is raised:
membership on a number raises TypeError, and subscripting a str or list
with a string key (reached only when membership succeeded) raises. -/
inductive InGet where
  | err : InGet
  | absent : InGet
  | found : Json → InGet
deriving DecidableEq

def pyInGet (k : String) : Json → InGet
  | .obj o =>
    match o.find? k with
    | none => .absent
    | some v => .found v
  | .str s => if listContainsSub k.data s.data then .err else .absent
  | .arr a => if a.containsVal (Json.str k) then .err else .absent
  | .null => .err
  | .bool _ => .err
  | .num _ => .err

/-- Python len() on a JSON value: defined on lists, strings and dicts,
raising TypeError (none) otherwise. -/
def pyLen : Json → Option Nat
  | .arr a => some a.size
  | .str s => some s.length
  | .obj o => some o.size
  | _ => none

/-- Python membership test of a string in a JSON value: element
membership on lists, substring on strings, key membership on dicts,
TypeError (none) otherwise. -/
def pyInJ (needle : String) : Json → Option Bool
  | .arr a => some (a.containsVal (Json.str needle))
  | .str s => some (listContainsSub needle.data s.data)
  | .obj o => some (o.find? needle).isSome
  | _ => none

/-- Decimal digits of a natural number, least fuel first; models how
json.dumps prints the (non-negative) integers used by the scripts. -/
def natCharsAux : Nat → Nat → List Char
  | 0, _ => []
  | fuel + 1, n =>
    if n < 10 then [Nat.digitChar n]
    else natCharsAux fuel (n / 10) ++ [Nat.digitChar (n % 10)]

def natChars (n : Nat) : List Char := natCharsAux (n + 1) n

/-- Four-hex-digit unicode escape emitted by json.dumps for control and
non-ASCII characters (ensure_ascii is the default in the scripts). -/
def uEscape (n : Nat) : List Char :=
  ['\\', 'u', Nat.digitChar (n / 4096 % 16), Nat.digitChar (n / 256 % 16),
   Nat.digitChar (n / 16 % 16), Nat.digitChar (n % 16)]

/-- Escaping of one character inside a JSON string, as json.dumps does
with its default ensure_ascii=True. -/
def escChar (c : Char) : List Char :=
  if c = '"' then ['\\', '"']
  else if c = '\\' then ['\\', '\\']
  else if c = '\n' then ['\\', 'n']
  else if c = '\r' then ['\\', 'r']
  else if c = '\t' then ['\\', 't']
  else if c.toNat = 8 then ['\\', 'b']
  else if c.toNat = 12 then ['\\', 'f']
  else if c.toNat < 32 || 126 < c.toNat then uEscape c.toNat
  else [c]

def escChars : List Char → List Char
  | [] => []
  | c :: cs => escChar c ++ escChars cs

/-- Leading quote, escaped key, closing quote, colon and space: the key
part of an object entry under json.dumps default separators. -/
def keyChars (k : String) : List Char :=
  '"' :: (escChars k.data ++ ['"', ':', ' '])

mutual
/-- Serialization modelling json.dumps with its default separators
(comma-space between items, colon-space after keys). -/
def dumpsChars : Json → List Char
  | .null => "null".data
  | .bool true => "true".data
  | .bool false => "false".data
  | .num n => natChars n
  | .str s => '"' :: (escChars s.data ++ ['"'])
  | .arr a => '[' :: (dumpsArr a ++ [']'])
  | .obj o => '\x7b' :: (dumpsObj o ++ ['\x7d'])

def dumpsArr : JsonArr → List Char
  | .nil => []
  | .cons x .nil => dumpsChars x
  | .cons x (.cons y rest) => dumpsChars x ++ [',', ' '] ++ dumpsArr (.cons y rest)

def dumpsObj : JsonObj → List Char
  | .nil => []
  | .cons k v .nil => keyChars k ++ dumpsChars v
  | .cons k v (.cons k2 v2 rest) =>
    keyChars k ++ dumpsChars v ++ [',', ' '] ++ dumpsObj (.cons k2 v2 rest)
end

/-- Framing used by tests/mcp/test_mcp_protocol.py (and test-raw-socket.py
and the vscode diagnostic): json.dumps of the request followed by a
single newline. -/
def encode_mcp_protocol (j : Json) : List Char := dumpsChars j ++ ['\n']

/-- Framing used by tests/mcp/test_mcp_simple.py: json.dumps of the
request with no newline appended. -/
def encode_mcp_simple (j : Json) : List Char := dumpsChars j

/-- Data obtained from one sock.recv call, abstracted through the
decode attempt the scripts make: a socket-level exception, a zero-length
read, a non-empty read that json.loads rejects, or a parsed value. -/
inductive RecvData where
  | exn : RecvData
  | empty : RecvData
  | invalid : RecvData
  | json : Json → RecvData
deriving DecidableEq

/-- Outcome printed by Test 1 of tests/mcp/test_mcp_protocol.py
(lines 46-59).  none models an uncaught exception: response.get on a
non-dict raises AttributeError, which escapes the inner
except-JSONDecodeError and aborts the whole function. -/
inductive Step1Outcome where
  | noResponse : Step1Outcome
  | notJson : Step1Outcome
  | initSuccess : Step1Outcome
  | warnNoResult : Step1Outcome
deriving DecidableEq

def mcpStep1 : RecvData → Option Step1Outcome
  | .exn => none
  | .empty => some .noResponse
  | .invalid => some .notJson
  | .json (.obj o) =>
    some (if (o.find? "result").isSome then .initSuccess else .warnNoResult)
  | .json _ => none

/-- Outcome printed by Test 2 of tests/mcp/test_mcp_protocol.py
(lines 75-90).  The tools loop calls tool.get, so it completes without
raising only when the tools value is a list of dicts, an empty string or
an empty dict; len on other values raises TypeError. -/
inductive Step2Outcome where
  | noResponse : Step2Outcome
  | notJson : Step2Outcome
  | noTools : Step2Outcome
  | toolsFound : Nat → Step2Outcome
deriving DecidableEq

def allObjs : JsonArr → Bool
  | .nil => true
  | .cons (.obj _) rest => allObjs rest
  | .cons _ _ => false

def mcpStep2 : RecvData → Option Step2Outcome
  | .exn => none
  | .empty => some .noResponse
  | .invalid => some .notJson
  | .json j =>
    match pyInGet "result" j with
    | .err => none
    | .absent => some .noTools
    | .found rv =>
      match pyInGet "tools" rv with
      | .err => none
      | .absent => some .noTools
      | .found tv =>
        match tv with
        | .arr ts => if allObjs ts then some (.toolsFound ts.size) else none
        | .str s => if s.data.isEmpty then some (.toolsFound 0) else none
        | .obj o => if o.size = 0 then some (.toolsFound 0) else none
        | _ => none

/-- Outcome printed by Test 3 of tests/mcp/test_mcp_protocol.py
(lines 111-132).  When the first content item is a dict, the script
slices content[0].get('text', '') with [:100]: that succeeds for a
string or list value, and for an absent text key (the default is the
empty string), but raises TypeError - aborting the function via the
outer except - when the text value is a number, bool, null or dict. -/
inductive Step3Outcome where
  | noResponse : Step3Outcome
  | notJson : Step3Outcome
  | contentText : Step3Outcome
  | unexpectedContent : Step3Outcome
  | resultOther : Step3Outcome
  | noResult : Step3Outcome
deriving DecidableEq

def mcpStep3 : RecvData → Option Step3Outcome
  | .exn => none
  | .empty => some .noResponse
  | .invalid => some .notJson
  | .json j =>
    match pyInGet "result" j with
    | .err => none
    | .absent => some .noResult
    | .found rv =>
      match rv with
      | .obj ro =>
        match ro.find? "content" with
        | none => some .resultOther
        | some (.arr (.cons (.obj t) _)) =>
          match t.find? "text" with
          | none => some .contentText
          | some (.str _) => some .contentText
          | some (.arr _) => some .contentText
          | some _ => none
        | some (.arr (.cons _ _)) => none
        | some (.arr .nil) => some .unexpectedContent
        | some _ => some .unexpectedContent
      | _ => some .resultOther

/-- One recorded step of the scenario, tagged with its test number. -/
inductive StepRecord where
  | s1 : Step1Outcome → StepRecord
  | s2 : Step2Outcome → StepRecord
  | s3 : Step3Outcome → StepRecord
deriving DecidableEq

/-- The whole body of test_mcp_protocol in tests/mcp/test_mcp_protocol.py,
as a function of the three receive results.  The three tests run in
straight line on the one connection; only an exception escaping a step
handler jumps to the outer except and stops the remaining steps.  The
second component is the function's Python return value: there is no
return statement, so it is always None, modelled as none. -/
def test_mcp_protocol_run (r1 r2 r3 : RecvData) :
    List StepRecord × Option Bool :=
  match mcpStep1 r1 with
  | none => ([], none)
  | some o1 =>
    match mcpStep2 r2 with
    | none => ([.s1 o1], none)
    | some o2 =>
      match mcpStep3 r3 with
      | none => ([.s1 o1, .s2 o2], none)
      | some o3 => ([.s1 o1, .s2 o2, .s3 o3], none)

/-- Python truthiness of a returned Optional boolean, as applied by
run_python_test in tests/mcp/main: None is falsy. -/
def pyTruthy : Option Bool → Bool
  | none => false
  | some b => b

/-- Which step records count as a pass: the lines the script prints with
a success marker (initialize successful, a tools listing, tool-call
content) or a plain result text; warning and no-response lines fail. -/
def stepPassed : StepRecord → Bool
  | .s1 .initSuccess => true
  | .s1 _ => false
  | .s2 (.toolsFound _) => true
  | .s2 _ => false
  | .s3 .contentText => true
  | .s3 .resultOther => true
  | .s3 _ => false

/-- Python str.strip default whitespace set. -/
def isPySpace (c : Char) : Bool :=
  [' ', '\t', '\n', '\r', '\x0b', '\x0c'].contains c

def pyStrip (s : String) : List Char :=
  ((s.data.dropWhile isPySpace).reverse.dropWhile isPySpace).reverse

/-- check_mcp_server_running from vscode_mcp_diagnostic.py (lines 39-61):
runs pgrep; input is none when subprocess.run itself raises, otherwise
the returncode and stdout.  True iff returncode is 0 and the stripped
stdout is non-empty. -/
def check_mcp_server_running : Option (Int × String) → Bool
  | none => false
  | some (rc, out) => rc == 0 && !(pyStrip out).isEmpty

/-- check_unix_socket from vscode_mcp_diagnostic.py (lines 63-85): fails
when the path is absent, fails when os.path.getsize reports 0, then
under try stats the file (statOk false models the except branch); the
permission comparison only prints a warning and never changes the
result. -/
def check_unix_socket (sockExists : Bool) (size : Nat) (statOk : Bool)
    (mode : Nat) : Bool :=
  if sockExists then
    if size == 0 then false
    else if statOk then true else false
  else false

/-- Tools/list phase of test_mcp_protocol in vscode_mcp_diagnostic.py
(lines 134-155).  json.loads of an empty read raises, response with no
dict result raises KeyError or TypeError, and every tool iterated must
be a dict carrying name and description; all exceptions are caught by
the function's outer except, which returns False. -/
def allToolsNamed : JsonArr → Bool
  | .nil => true
  | .cons (.obj t) rest =>
    (t.find? "name").isSome && (t.find? "description").isSome && allToolsNamed rest
  | .cons _ _ => false

def diag_tools_ok : RecvData → Bool
  | .json (.obj o) =>
    match o.find? "result" with
    | some (.obj ro) =>
      match ro.find? "tools" with
      | some (.arr ts) => allToolsNamed ts
      | some (.str s) => s.data.isEmpty
      | some (.obj t) => t.size == 0
      | _ => false
    | _ => false
  | _ => false

/-- test_mcp_protocol from vscode_mcp_diagnostic.py (lines 87-166): the
initialize exchange must yield a dict response whose result is a dict
carrying serverInfo (a dict with a name) and protocolVersion - the two
print_info lines raise KeyError or TypeError otherwise - after which a
second connection performs the tools/list exchange.  Every failure path,
exception or not, returns False. -/
def diag_test_mcp_protocol (sockExists : Bool) (r1 r2 : RecvData) : Bool :=
  if !sockExists then false
  else
    match r1 with
    | .exn => false
    | .empty => false
    | .invalid => false
    | .json j =>
      match pyInGet "result" j with
      | .err => false
      | .absent => false
      | .found rv =>
        match rv with
        | .obj ro =>
          match ro.find? "serverInfo" with
          | some (.obj si) =>
            if (si.find? "name").isSome then
              if (ro.find? "protocolVersion").isSome then diag_tools_ok r2
              else false
            else false
          | _ => false
        | _ => false

/-- The four recognized settings keys, in the order check_vscode_config
tests them (vscode_mcp_diagnostic.py lines 184-194). -/
def config_keys : List String :=
  ["mcp.servers", "copilot.mcp.servers", "claude-dev.mcpServers", "mcpServers"]

/-- One key test of check_vscode_config: the key is counted as found
when it is present in the settings dict and nixai is present in its
value.  none models an exception (membership or subscript on an
unsuitable value), which the enclosing except turns into False. -/
def configKeyFound (s : Json) (k : String) : Option Bool :=
  match pyInGet k s with
  | .err => none
  | .absent => some false
  | .found v =>
    match pyInGet "nixai" v with
    | .err => none
    | .absent => some false
    | .found _ => some true

/-- Sequential evaluation of the four key tests, collecting the keys
found; an exception anywhere aborts to the except branch. -/
def seqKeyChecks (s : Json) : List String → Option (List String)
  | [] => some []
  | k :: rest =>
    match configKeyFound s k with
    | none => none
    | some b =>
      match seqKeyChecks s rest with
      | none => none
      | some l => some (if b then k :: l else l)

/-- Python space-join of the args value, used by the bash branch of the
command-format check; it requires a list of strings (or a string, whose
characters get joined, or a dict, whose keys get joined). -/
def joinStrsArr : JsonArr → Option (List Char)
  | .nil => some []
  | .cons (.str s) .nil => some s.data
  | .cons (.str s) (.cons y rest) =>
    match joinStrsArr (.cons y rest) with
    | none => none
    | some r => some (s.data ++ ' ' :: r)
  | .cons _ _ => none

def intersperseSpace : List Char → List Char
  | [] => []
  | [c] => [c]
  | c :: d :: rest => c :: ' ' :: intersperseSpace (d :: rest)

def joinObjKeys : JsonObj → Option (List Char)
  | .nil => some []
  | .cons k _ .nil => some k.data
  | .cons k _ (.cons k2 v2 rest) =>
    match joinObjKeys (.cons k2 v2 rest) with
    | none => none
    | some r => some (k.data ++ ' ' :: r)

def pyJoin : Json → Option (List Char)
  | .arr a => joinStrsArr a
  | .str s => some (intersperseSpace s.data)
  | .obj o => joinObjKeys o
  | _ => none

/-- The command-format inspection run for each found key
(vscode_mcp_diagnostic.py lines 200-210).  All three branches only
print; the value records whether an exception is raised while the
conditions are evaluated (len or membership or join on an unsuitable
args value, or .get on a non-dict nixai entry). -/
def checkCommandFormat : Json → Option Unit
  | .obj no =>
    let command := (no.find? "command").getD (Json.str "")
    let args := (no.find? "args").getD (Json.arr JsonArr.nil)
    let cond1 : Option Bool :=
      if command == Json.str "socat" then
        match pyLen args with
        | none => none
        | some n =>
          if 2 ≤ n then pyInJ "UNIX-CONNECT:/tmp/nixai-mcp.sock" args
          else some false
      else some false
    match cond1 with
    | none => none
    | some true => some ()
    | some false =>
      let cond2 : Option Bool :=
        if command == Json.str "bash" then
          match pyInJ "-c" args with
          | none => none
          | some false => some false
          | some true =>
            match pyJoin args with
            | none => none
            | some joined =>
              if listContainsSub "socat".data joined then
                some (listContainsSub "UNIX-CONNECT:/tmp/nixai-mcp.sock".data joined)
              else some false
        else some false
      match cond2 with
      | none => none
      | some _ => some ()
  | _ => none

def checkFormatAt (s : Json) (k : String) : Option Unit :=
  match s with
  | .obj o =>
    match o.find? k with
    | some (.obj sk) =>
      match sk.find? "nixai" with
      | some nv => checkCommandFormat nv
      | none => none
    | _ => none
  | _ => none

def formatLoop (s : Json) : List String → Option Unit
  | [] => some ()
  | k :: rest =>
    match checkFormatAt s k with
    | none => none
    | some _ => formatLoop s rest

/-- check_vscode_config from vscode_mcp_diagnostic.py (lines 168-218):
False when the settings file is absent; the settings input is none when
reading or json.load raises.  Otherwise the four key tests run, at
least one key must be found, and the command-format loop over the found
keys must finish without raising; any exception hits the outer except
and yields False. -/
def check_vscode_config (settingsExists : Bool) (settings : Option Json) : Bool :=
  if !settingsExists then false
  else
    match settings with
    | none => false
    | some s =>
      match seqKeyChecks s config_keys with
      | none => false
      | some found =>
        if found.isEmpty then false
        else
          match formatLoop s found with
          | none => false
          | some _ => true

/-- The fixed required-extensions table of check_vscode_extensions
(vscode_mcp_diagnostic.py lines 237-241), id paired with display name. -/
def required_extensions : List (String × String) :=
  [("automatalabs.copilot-mcp", "Copilot MCP"),
   ("zebradev.mcp-server-runner", "MCP Server Runner"),
   ("saoudrizwan.claude-dev", "Claude Dev (Cline)")]

/-- ASCII lowercasing of a string to a character list, modelling Python
str.lower() on the ASCII extension identifiers the script compares. -/
def lowerChar (c : Char) : Char :=
  if 65 ≤ c.toNat && c.toNat ≤ 90 then Char.ofNat (c.toNat + 32) else c

def lowerChars (s : String) : List Char := s.data.map lowerChar

/-- check_vscode_extensions from vscode_mcp_diagnostic.py (lines
220-262): input none when subprocess.run raises (for instance the code
command does not exist), otherwise returncode and stdout split into
lines.  The probe succeeds iff the command ran, exited 0, and at least
one required id appears among the lines compared case-insensitively. -/
def check_vscode_extensions : Option (Int × List String) → Bool
  | none => false
  | some (rc, exts) =>
    if rc != 0 then false
    else
      let found := (required_extensions.filter
        (fun p => exts.any (fun e => lowerChars e == lowerChars p.1))).map (fun p => p.2)
      decide (0 < found.length)

/-- Name of the file created by create_test_file
(vscode_mcp_diagnostic.py line 268). -/
def test_file_name : String := "test-mcp-integration.nix"

/-- create_test_file from vscode_mcp_diagnostic.py (lines 264-305):
opens test-mcp-integration.nix for writing and writes fixed content.
The filesystem is modelled as the list of paths present; on success the
file is added and True returned, on a write exception False. -/
def create_test_file (writeOk : Bool) (fs : List String) : List String × Bool :=
  if writeOk then (test_file_name :: fs, true) else (fs, false)

/-- main from vscode_mcp_diagnostic.py (lines 361-379): runs the six
checks in order, prints the manual steps and the summary, and returns
None; the process therefore always exits with status 0, the final Nat.
Only create_test_file touches the filesystem - the other five checks
read process state, stat results, sockets and files without writing. -/
def diagnostic_main (pgrep : Option (Int × String)) (sockExists : Bool)
    (sockSize : Nat) (statOk : Bool) (sockMode : Nat) (r1 r2 : RecvData)
    (settingsExists : Bool) (settings : Option Json)
    (extCmd : Option (Int × List String)) (writeOk : Bool)
    (fs : List String) : (List Bool × List String) × Nat :=
  let p := create_test_file writeOk fs
  (([check_mcp_server_running pgrep,
     check_unix_socket sockExists sockSize statOk sockMode,
     diag_test_mcp_protocol sockExists r1 r2,
     check_vscode_config settingsExists settings,
     check_vscode_extensions extCmd,
     p.2], p.1), 0)

/-- The all-checks-passed boolean computed by diagnostic_summary
(vscode_mcp_diagnostic.py line 355). -/
def diagnostic_summary_allPassed (results : List Bool) : Bool :=
  results.all id

/-- main from tests/mcp/main (lines 53-94) as a function of the five
test outcomes it tracks: failed counts the outcomes reported FAILED,
main returns failed == 0 and the script exits 0 when that is truthy
and 1 otherwise. -/
def mcp_main (t1 t2 t3 t4 t5 : Bool) : Nat :=
  let failed := ([t1, t2, t3, t4, t5].filter (fun b => !b)).length
  if failed == 0 then 0 else 1

/-- Behaviour of one blocking recv on a socket with the given configured
timeout, against a server that may never respond. -/
inductive RecvBehavior where
  | delivers : RecvBehavior
  | timesOut : Nat → RecvBehavior
  | blocksForever : RecvBehavior
deriving DecidableEq

def recvWithDeadline : Option Nat → Bool → RecvBehavior
  | _, true => .delivers
  | some t, false => .timesOut t
  | none, false => .blocksForever

/-- Timeout configured on the socket of tests/mcp/test_mcp_protocol.py:
the script never calls settimeout, so the socket stays in blocking
mode. -/
def test_mcp_protocol_timeout : Option Nat := none

/-- Timeout in force during the recv of test-raw-socket.py (line 42
raises it to 10 seconds before receiving). -/
def test_raw_socket_recv_timeout : Option Nat := some 10

/-- Timeout set by tests/mcp/test_mcp_simple.py (settimeout(10)). -/
def test_mcp_simple_timeout : Option Nat := some 10

/-- Timeout set by test_mcp_protocol in vscode_mcp_diagnostic.py
(settimeout(5) on both connections). -/
def diagnostic_socket_timeout : Option Nat := some 5

/-- Helper to build object fixtures from key-value lists. -/
def JsonObj.ofList : List (String × Json) → JsonObj
  | [] => .nil
  | (k, v) :: rest => .cons k v (JsonObj.ofList rest)

/-- Helper to build array fixtures from lists. -/
def JsonArr.ofList : List Json → JsonArr
  | [] => .nil
  | x :: rest => .cons x (JsonArr.ofList rest)

/-- The initialize request of tests/mcp/test_mcp_protocol.py
(lines 25-40), with id 1. -/
def initialize_request : Json :=
  Json.obj (JsonObj.ofList
    [("jsonrpc", Json.str "2.0"),
     ("id", Json.num 1),
     ("method", Json.str "initialize"),
     ("params", Json.obj (JsonObj.ofList
       [("protocolVersion", Json.str "2024-11-05"),
        ("capabilities", Json.obj (JsonObj.ofList
          [("experimental", Json.obj JsonObj.nil),
           ("sampling", Json.obj JsonObj.nil)])),
        ("clientInfo", Json.obj (JsonObj.ofList
          [("name", Json.str "test-client"),
           ("version", Json.str "1.0.0")]))]))])

/-- The initialize request of tests/mcp/test_mcp_simple.py
(lines 20-34): same envelope with empty capabilities. -/
def simple_request : Json :=
  Json.obj (JsonObj.ofList
    [("jsonrpc", Json.str "2.0"),
     ("id", Json.num 1),
     ("method", Json.str "initialize"),
     ("params", Json.obj (JsonObj.ofList
       [("protocolVersion", Json.str "2024-11-05"),
        ("capabilities", Json.obj JsonObj.nil),
        ("clientInfo", Json.obj (JsonObj.ofList
          [("name", Json.str "test-client"),
           ("version", Json.str "1.0.0")]))]))])

/-- A response carrying both a result and an error member. -/
def bothResultAndError : Json :=
  Json.obj (JsonObj.ofList
    [("jsonrpc", Json.str "2.0"),
     ("id", Json.num 1),
     ("result", Json.obj (JsonObj.ofList
       [("serverInfo", Json.obj (JsonObj.ofList [("name", Json.str "nixai")])),
        ("protocolVersion", Json.str "2024-11-05")])),
     ("error", Json.obj (JsonObj.ofList
       [("code", Json.num 0), ("message", Json.str "boom")]))])

/-- A well-formed initialize response whose id, 999, differs from the
request id 1 sent on the same exchange. -/
def respWrongId : Json :=
  Json.obj (JsonObj.ofList
    [("jsonrpc", Json.str "2.0"),
     ("id", Json.num 999),
     ("result", Json.obj (JsonObj.ofList
       [("serverInfo", Json.obj (JsonObj.ofList [("name", Json.str "nixai")])),
        ("protocolVersion", Json.str "2024-11-05")]))])

/-- A conforming initialize response, matching the concrete scenario in
the spec. -/
def initRespOk : Json :=
  Json.obj (JsonObj.ofList
    [("jsonrpc", Json.str "2.0"),
     ("id", Json.num 1),
     ("result", Json.obj (JsonObj.ofList
       [("protocolVersion", Json.str "2024-11-05"),
        ("serverInfo", Json.obj (JsonObj.ofList [("name", Json.str "nixai")]))]))])

/-- A conforming tools/list response with two tools. -/
def toolsRespOk : Json :=
  Json.obj (JsonObj.ofList
    [("jsonrpc", Json.str "2.0"),
     ("id", Json.num 2),
     ("result", Json.obj (JsonObj.ofList
       [("tools", Json.arr (JsonArr.ofList
         [Json.obj (JsonObj.ofList
            [("name", Json.str "query_nixos_docs"),
             ("description", Json.str "Query NixOS documentation")]),
          Json.obj (JsonObj.ofList
            [("name", Json.str "explain_nixos_option"),
             ("description", Json.str "Explain a NixOS option")])]))]))])

/-- A tools/list response whose result has no tools member: Test 2 of
the protocol script records this as a step failure. -/
def toolsRespMissing : Json :=
  Json.obj (JsonObj.ofList
    [("jsonrpc", Json.str "2.0"),
     ("id", Json.num 2),
     ("result", Json.obj (JsonObj.ofList [("status", Json.str "ok")]))])

/-- A conforming tools/call response with one text content item. -/
def callRespOk : Json :=
  Json.obj (JsonObj.ofList
    [("jsonrpc", Json.str "2.0"),
     ("id", Json.num 3),
     ("result", Json.obj (JsonObj.ofList
       [("content", Json.arr (JsonArr.ofList
         [Json.obj (JsonObj.ofList
            [("type", Json.str "text"),
             ("text", Json.str "services.nginx.enable enables nginx")])]))]))])

/-- A settings.json content that check_vscode_config accepts: a nixai
registration under mcpServers with the socat command form. -/
def goodSettings : Json :=
  Json.obj (JsonObj.ofList
    [("mcpServers", Json.obj (JsonObj.ofList
      [("nixai", Json.obj (JsonObj.ofList
        [("command", Json.str "socat"),
         ("args", Json.arr (JsonArr.ofList
           [Json.str "STDIO",
            Json.str "UNIX-CONNECT:/tmp/nixai-mcp.sock"]))]))]))])

/-- Claim C1, counterexample: a response carrying both a result and an
error member is accepted by Test 1 of tests/mcp/test_mcp_protocol.py as
a successful initialize, instead of failing with a dedicated ambiguous
envelope error. -/
theorem C1_counterexample :
    jsonHasKey bothResultAndError "result" = true ∧
    jsonHasKey bothResultAndError "error" = true ∧
    mcpStep1 (RecvData.json bothResultAndError) = some Step1Outcome.initSuccess := by
  decide

/-- Claim C1, amended: the handler checks only the presence of the
result member.  A decoded object response is accepted as a successful
initialize exactly when it carries a result key - whether or not it also
carries an error key - and a response without a result is recorded with
a warning, not with a MissingEnvelopeField error. -/
theorem C1_amended_result_presence (o : JsonObj) :
    mcpStep1 (RecvData.json (Json.obj o)) = some Step1Outcome.initSuccess ↔
      (o.find? "result").isSome = true := by
  cases h : (o.find? "result").isSome <;> simp [mcpStep1, h]

/-- Claim C6, counterexample: the request of
tests/mcp/test_mcp_protocol.py carries id 1, the decoded response
carries id 999, and the script still records a successful initialize;
no IdMismatch protocol violation is reported. -/
theorem C6_counterexample :
    jsonGetKey initialize_request "id" = some (Json.num 1) ∧
    jsonGetKey respWrongId "id" = some (Json.num 999) ∧
    mcpStep1 (RecvData.json respWrongId) = some Step1Outcome.initSuccess := by
  decide

/-- Claim C6, amended: the harness never compares the response id with
the request id.  Replacing the id member of a decoded response with any
other value changes neither the outcome Test 1 of the protocol script
records nor the verdict of the diagnostic's protocol check. -/
theorem C6_amended_id_ignored (v w : Json) (o : JsonObj) (se : Bool) (r2 : RecvData) :
    mcpStep1 (RecvData.json (Json.obj (JsonObj.cons "id" v o))) =
      mcpStep1 (RecvData.json (Json.obj (JsonObj.cons "id" w o))) ∧
    diag_test_mcp_protocol se (RecvData.json (Json.obj (JsonObj.cons "id" v o))) r2 =
      diag_test_mcp_protocol se (RecvData.json (Json.obj (JsonObj.cons "id" w o))) r2 := by
  have h : ∀ u : Json, (JsonObj.cons "id" u o).find? "result" = o.find? "result" := by
    intro u
    simp [JsonObj.find?]
  constructor
  · simp [mcpStep1, h]
  · simp [diag_test_mcp_protocol, pyInGet, h]

/-- Claim C7: check_unix_socket uses the reported file size as a
pass/fail criterion.  At the failing input - the socket path exists,
stat succeeds, permissions are the expected 0o755, but the size is 0,
which is what os.path.getsize reports for every Unix socket file - the
probe fails, and changing nothing but the size to 1 makes it pass; no
socket-type validation or connect attempt exists in the probe. -/
theorem C7_code_eval :
    check_unix_socket true 0 true 493 = false ∧
    check_unix_socket true 1 true 493 = true := by
  decide

/-- Claim C2, counterexample: a diagnostic run in which every check
fails still exits with status 0, because main in
vscode_mcp_diagnostic.py returns None and never calls sys.exit; the
claimed exit status 1 for a false overall boolean does not happen. -/
theorem C2_counterexample :
    (diagnostic_main none false 0 false 0 RecvData.exn RecvData.exn
        false none none false []).1.1.all id = false ∧
    (diagnostic_main none false 0 false 0 RecvData.exn RecvData.exn
        false none none false []).2 = 0 := by
  decide

/-- Claim C2, amended: the test-runner entry point tests/mcp/main exits
0 exactly when all of its tests pass and 1 otherwise, but the vscode
diagnostic entry point exits 0 regardless of its check results. -/
theorem C2_amended_exit_codes :
    (∀ t1 t2 t3 t4 t5 : Bool,
      mcp_main t1 t2 t3 t4 t5 = if [t1, t2, t3, t4, t5].all id then 0 else 1) ∧
    (∀ (pg : Option (Int × String)) (se : Bool) (ss : Nat) (so : Bool) (sm : Nat)
       (r1 r2 : RecvData) (cfe : Bool) (cfg : Option Json)
       (ext : Option (Int × List String)) (wo : Bool) (fs : List String),
      (diagnostic_main pg se ss so sm r1 r2 cfe cfg ext wo fs).2 = 0) := by
  constructor
  · decide
  · intro pg se ss so sm r1 r2 cfe cfg ext wo fs
    rfl

/-- Claim C3, counterexample: a run of tests/mcp/test_mcp_protocol.py in
which all three steps receive conforming responses records three passing
steps, yet the function returns None, so the runner reports the scenario
failed; the scenario's overall result is not the AND of the step
outcomes. -/
theorem C3_counterexample :
    (test_mcp_protocol_run (RecvData.json initRespOk) (RecvData.json toolsRespOk)
        (RecvData.json callRespOk)).1.all stepPassed = true ∧
    pyTruthy (test_mcp_protocol_run (RecvData.json initRespOk)
        (RecvData.json toolsRespOk) (RecvData.json callRespOk)).2 = false := by
  decide

/-- Claim C3, amended: whenever each step handler completes without an
uncaught exception - in particular on every predicate or decode failure,
which the handlers record rather than raise; the exceptions are socket
errors, envelopes of unexpected Python type, and an unsliceable text
value in Test 3 - all three steps execute on the one connection and are
recorded independently, so a failing step 2 still leaves step 3 recorded
with its own outcome; but the scenario's reported overall result is the
Python-falsy None return, reported as failure regardless of the step
outcomes rather than as their AND. -/
theorem C3_amended_no_short_circuit (r1 r2 r3 : RecvData)
    (o1 : Step1Outcome) (o2 : Step2Outcome) (o3 : Step3Outcome)
    (h1 : mcpStep1 r1 = some o1) (h2 : mcpStep2 r2 = some o2)
    (h3 : mcpStep3 r3 = some o3) :
    (test_mcp_protocol_run r1 r2 r3).1 =
      [StepRecord.s1 o1, StepRecord.s2 o2, StepRecord.s3 o3] ∧
    pyTruthy (test_mcp_protocol_run r1 r2 r3).2 = false := by
  unfold test_mcp_protocol_run
  rw [h1, h2, h3]
  exact ⟨rfl, rfl⟩

/-- Witness for C3 at the claim's own illustration: step 2 receives a
response without tools and fails, step 3 receives a conforming tool-call
response; step 3 is still recorded as passed and the scenario is
reported failed. -/
theorem C3_witness :
    (test_mcp_protocol_run (RecvData.json initRespOk)
        (RecvData.json toolsRespMissing) (RecvData.json callRespOk)).1 =
      [StepRecord.s1 Step1Outcome.initSuccess, StepRecord.s2 Step2Outcome.noTools,
       StepRecord.s3 Step3Outcome.contentText] ∧
    pyTruthy (test_mcp_protocol_run (RecvData.json initRespOk)
        (RecvData.json toolsRespMissing) (RecvData.json callRespOk)).2 = false :=
  C3_amended_no_short_circuit (RecvData.json initRespOk)
    (RecvData.json toolsRespMissing) (RecvData.json callRespOk)
    Step1Outcome.initSuccess Step2Outcome.noTools Step3Outcome.contentText
    rfl rfl rfl

theorem digitChar_lt_ne_newline : ∀ m, m < 10 → Nat.digitChar m ≠ '\n' := by decide

theorem natChars_getLast?_ne_newline (n : Nat) : (natChars n).getLast? ≠ some '\n' := by
  unfold natChars natCharsAux
  by_cases h : n < 10
  · simp only [if_pos h, List.getLast?_singleton]
    intro hc
    exact digitChar_lt_ne_newline n h (by injection hc)
  · simp only [if_neg h]
    rw [List.getLast?_concat]
    intro hc
    exact digitChar_lt_ne_newline (n % 10) (Nat.mod_lt n (by norm_num)) (by injection hc)

/-- The serializer never ends with a newline of its own: the last
character of json.dumps output is a closing brace, bracket, quote,
digit or keyword letter. -/
theorem dumpsChars_getLast?_ne_newline (j : Json) :
    (dumpsChars j).getLast? ≠ some '\n' := by
  cases j with
  | null => decide
  | bool b => cases b <;> decide
  | num n => exact natChars_getLast?_ne_newline n
  | str s =>
    show ('"' :: (escChars s.data ++ ['"'])).getLast? ≠ some '\n'
    rw [← List.cons_append, List.getLast?_concat]
    decide
  | arr a =>
    show ('[' :: (dumpsArr a ++ [']'])).getLast? ≠ some '\n'
    rw [← List.cons_append, List.getLast?_concat]
    decide
  | obj o =>
    show ('\x7b' :: (dumpsObj o ++ ['\x7d'])).getLast? ≠ some '\n'
    rw [← List.cons_append, List.getLast?_concat]
    decide

/-- Claim C5, counterexample: the request that
tests/mcp/test_mcp_simple.py sends on the wire is the bare json.dumps
output, ending in a closing brace with no terminal newline. -/
theorem C5_counterexample :
    encode_mcp_simple simple_request = dumpsChars simple_request ∧
    (encode_mcp_simple simple_request).getLast? = some '\x7d' := by
  exact ⟨rfl, by decide⟩

/-- Claim C5, amended: the scripts that frame with a newline
(tests/mcp/test_mcp_protocol.py, test-raw-socket.py, the vscode
diagnostic) always send exactly one terminal newline, but
tests/mcp/test_mcp_simple.py sends the serialized envelope with no
newline at all, so not every request on the wire ends with one. -/
theorem C5_amended_framing (j : Json) :
    (encode_mcp_protocol j).getLast? = some '\n' ∧
    (encode_mcp_protocol j).dropLast.getLast? ≠ some '\n' ∧
    (encode_mcp_simple j).getLast? ≠ some '\n' := by
  refine ⟨List.getLast?_concat _, ?_, dumpsChars_getLast?_ne_newline j⟩
  show (dumpsChars j ++ ['\n']).dropLast.getLast? ≠ some '\n'
  rw [List.dropLast_concat]
  exact dumpsChars_getLast?_ne_newline j

/-- Claim C4: tests/mcp/test_mcp_protocol.py never configures a socket
timeout, so against a server that accepts the connection but never
responds its recv blocks forever instead of failing after a deadline;
the other scripts (here test-raw-socket.py and the vscode diagnostic)
do bound their receives. -/
theorem C4_code_eval :
    recvWithDeadline test_mcp_protocol_timeout false = RecvBehavior.blocksForever ∧
    recvWithDeadline test_raw_socket_recv_timeout false = RecvBehavior.timesOut 10 ∧
    recvWithDeadline diagnostic_socket_timeout false = RecvBehavior.timesOut 5 := by
  decide

/-- Claim C8, counterexample: in a diagnostic run where every other
check succeeds and only the extension-listing command is absent, the
extension probe returns False - the same value as any failure, with no
skipped outcome - and the summary's all-passed boolean is false, so the
absence does count against the overall result. -/
theorem C8_counterexample :
    check_vscode_extensions none = false ∧
    (diagnostic_main (some (0, "1234")) true 1 true 493
        (RecvData.json initRespOk) (RecvData.json toolsRespOk) true
        (some goodSettings) none true []).1.1 =
      [true, true, true, true, false, true] ∧
    diagnostic_summary_allPassed
      (diagnostic_main (some (0, "1234")) true 1 true 493
          (RecvData.json initRespOk) (RecvData.json toolsRespOk) true
          (some goodSettings) none true []).1.1 = false := by
  decide

/-- Claim C8, amended: when subprocess.run cannot invoke the
extension-listing command the probe returns False, indistinguishable
from a probe that ran and failed, and that False makes the summary's
all-checks-passed boolean false whatever the other checks returned. -/
theorem C8_amended_absent_is_failure :
    check_vscode_extensions none = false ∧
    check_vscode_extensions none = check_vscode_extensions (some (1, [])) ∧
    (∀ r1 r2 r3 r4 r6 : Bool,
      diagnostic_summary_allPassed
        [r1, r2, r3, r4, check_vscode_extensions none, r6] = false) := by
  refine ⟨rfl, rfl, ?_⟩
  intro r1 r2 r3 r4 r6
  cases r1 <;> cases r2 <;> cases r3 <;> cases r4 <;> cases r6 <;> rfl

/-- Claim C9, counterexample: a diagnostic run on an empty filesystem
leaves test-mcp-integration.nix behind - the run creates a file, so it
is not read-only environment inspection. -/
theorem C9_counterexample :
    (diagnostic_main none false 0 false 0 RecvData.exn RecvData.exn false none
        none true []).1.2 = [test_file_name] ∧
    [test_file_name] ≠ ([] : List String) := by
  decide

/-- Claim C9, amended: the five inspection checks read process state,
socket metadata, the protocol and configuration files without touching
the filesystem; the only write of a run is create_test_file, which adds
exactly test-mcp-integration.nix when its write succeeds and nothing
otherwise - no file is ever modified or deleted. -/
theorem C9_amended_fs_effect (pg : Option (Int × String)) (se : Bool) (ss : Nat)
    (so : Bool) (sm : Nat) (r1 r2 : RecvData) (cfe : Bool) (cfg : Option Json)
    (ext : Option (Int × List String)) (wo : Bool) (fs : List String) :
    (diagnostic_main pg se ss so sm r1 r2 cfe cfg ext wo fs).1.2 =
      (if wo then test_file_name :: fs else fs) := by
  cases wo <;> rfl

theorem filter_pos_iff {α : Type} (p : α → Bool) (l : List α) :
    0 < (l.filter p).length ↔ ∃ x ∈ l, p x = true := by
  induction l with
  | nil => simp
  | cons a t ih => cases h : p a <;> simp [List.filter_cons, h, ih]

/-- Claim C10: when the extension-listing command runs and exits 0, the
probe succeeds exactly when at least one of the three required extension
ids appears, case-insensitively, among the listed extensions; a single
match, with the other two extensions missing, already passes. -/
theorem C10_extension_any_match :
    (∀ lines : List String,
      check_vscode_extensions (some (0, lines)) = true ↔
        ∃ p ∈ required_extensions, ∃ e ∈ lines, lowerChars e = lowerChars p.1) ∧
    check_vscode_extensions (some (0, ["AutomataLabs.Copilot-MCP"])) = true ∧
    check_vscode_extensions (some (0, ["zebradev.mcp-server-runner"])) = true := by
  refine ⟨?_, by decide, by decide⟩
  intro lines
  have hrw : check_vscode_extensions (some (0, lines)) =
      decide (0 < (required_extensions.filter
        (fun p => lines.any (fun e => lowerChars e == lowerChars p.1))).length) := by
    simp [check_vscode_extensions]
  rw [hrw, decide_eq_true_iff, filter_pos_iff]
  simp [List.any_eq_true]
